import Mathlib

/-!
Verification of the pydrive core against its specification.

The development shallowly embeds the Python sources:
  - `dbdict.py`  (the persistent key/value cache `DBDict`),
  - `auth.py`    (the `GraphAuth` credential / device-code flow),
  - `fsapi.py`   (the `GraphDrive` delta-sync loop and `GraphDriveItem`
    content reads).

Machine state (the sqlite table, the drive cache, the credential triple) is
modelled as explicit functional state; Python exceptions are modelled with
`Except`; HTTP traffic is modelled by passing the response a call would
receive as an explicit argument and returning the request the code issues.
-/

namespace PyDrive

/-- Exceptions raised by the modelled Python code paths. -/
inductive PyErr where
  | keyError (key : String)
  | valueError
  | assertionError (msg : String)
  | noTokenError
  | apiError
  | authorizationCanceled
  | authorizationTimeout
  deriving DecidableEq, Repr

/-! ### The persistent cache: `dbdict.py`

A `DBDict` table is a list of key/value rows (the sqlite table; the
`key BLOB UNIQUE PRIMARY KEY` column is modelled by the key component).
`findRow` models `SELECT value FROM t WHERE key=?` followed by `fetchone`,
returning the first matching row. -/

/-- Model of `SELECT value FROM t WHERE key=?` + `fetchone()`: the first row
whose key equals `k`, if any. -/
def findRow {K V : Type} [DecidableEq K] : List (K × V) → K → Option V
  | [], _ => none
  | (k', v) :: rest, k => if k' = k then some v else findRow rest k

/-- Model of `UPDATE t SET value=? WHERE key=?`: rewrite every row whose key
matches. -/
def updateRows {K V : Type} [DecidableEq K] : List (K × V) → K → V → List (K × V)
  | [], _, _ => []
  | (k', v') :: rest, k, v =>
      (if k' = k then (k', v) else (k', v')) :: updateRows rest k v

/-- Model of `DELETE FROM t WHERE key=?`. -/
def deleteRows {K V : Type} [DecidableEq K] (rows : List (K × V)) (k : K) :
    List (K × V) :=
  rows.filter (fun r => decide (r.1 ≠ k))

namespace DBDict

/-- The `KeyError` a `DBDict` lookup raises on a missing key. -/
inductive DBErr where
  | keyError
  deriving DecidableEq, Repr

/-- `DBDict.__getitem__`: `SELECT`, then `KeyError` when `fetchone` finds no
row, otherwise the stored value. -/
def getItem {K V : Type} [DecidableEq K] (rows : List (K × V)) (k : K) :
    Except DBErr V :=
  match findRow rows k with
  | some v => Except.ok v
  | none => Except.error DBErr.keyError

/-- `DBDict.__setitem__`: when `key in self` (a lookup succeeds) run `UPDATE`,
otherwise `INSERT` a fresh row at the end of the table. -/
def setItem {K V : Type} [DecidableEq K] (rows : List (K × V)) (k : K) (v : V) :
    List (K × V) :=
  if (findRow rows k).isSome then updateRows rows k v else rows ++ [(k, v)]

/-- `DBDict.__delitem__`: `KeyError` when the key is absent, otherwise
`DELETE` the row. -/
def delItem {K V : Type} [DecidableEq K] (rows : List (K × V)) (k : K) :
    Except DBErr (List (K × V)) :=
  if (findRow rows k).isSome then Except.ok (deleteRows rows k)
  else Except.error DBErr.keyError

/-- The sqlite3 cursor's `rowcount` attribute after
`execute('SELECT key FROM t')`.  Per the Python DB-API the row count of a
`SELECT` is not determinable by the sqlite3 driver and the attribute is `-1`,
regardless of how many rows the table holds. -/
def selectRowcount {K V : Type} (_rows : List (K × V)) : Int := -1

/-- `DBDict.__len__`: run the `SELECT` and return `max(cur.rowcount, 0)`. -/
def size {K V : Type} (rows : List (K × V)) : Nat :=
  (max (selectRowcount rows) 0).toNat

end DBDict

/-! ### The credential: `auth.py`

`GraphAuth` holds the triple (access token, expiry, refresh token).  Wall
clock instants (`datetime.utcnow()`) are integers; the responses the token
endpoint would return are passed in as explicit arguments. -/

/-- The credential triple held by `GraphAuth`. -/
structure AuthState where
  accessToken : Option String
  expires : Int
  refreshToken : Option String
  deriving DecidableEq, Repr

/-- A JSON body returned by the token endpoint: either it carries an
`error` field, or the grant fields. -/
inductive TokenResp where
  | failure (code : String)
  | success (expiresIn : Int) (refreshTok : String) (accessTok : String)
  deriving DecidableEq, Repr

namespace GraphAuth

/-- `GraphAuth.refresh`: raise `NoTokenError` without a refresh token; raise
`APIError` when the endpoint's response carries an `error` field; otherwise
replace the whole triple (expiry := now + `expires_in`) and return the new
access token.  The returned state is the credential after the call, also on
the error paths (which mutate nothing). -/
def refresh (now : Int) (st : AuthState) (resp : TokenResp) :
    Except PyErr String × AuthState :=
  match st.refreshToken with
  | none => (Except.error PyErr.noTokenError, st)
  | some _ =>
    match resp with
    | TokenResp.failure _ => (Except.error PyErr.apiError, st)
    | TokenResp.success expiresIn rt at2 =>
      (Except.ok at2,
       { accessToken := some at2, expires := now + expiresIn,
         refreshToken := some rt })

/-- `GraphAuth.access_token`: raise `NoTokenError` when neither token is
held; call `refresh` when `utcnow() > expires` or no access token is cached;
otherwise return the cached token.  The boolean records whether a renewal
was performed. -/
def access_token (now : Int) (st : AuthState) (resp : TokenResp) :
    Except PyErr (String × Bool) × AuthState :=
  if st.accessToken.isNone && st.refreshToken.isNone then
    (Except.error PyErr.noTokenError, st)
  else if decide (now > st.expires) || st.accessToken.isNone then
    match refresh now st resp with
    | (Except.ok tok, st2) => (Except.ok (tok, true), st2)
    | (Except.error e, st2) => (Except.error e, st2)
  else
    match st.accessToken with
    | some tok => (Except.ok (tok, false), st)
    | none => (Except.error PyErr.noTokenError, st)

/-- A grant returned by the device-code poll: `expires_in`, the access token
and the optional rotated refresh token. -/
structure PollGrant where
  expiresIn : Int
  accessTok : String
  refreshTok : Option String
  deriving DecidableEq, Repr

/-- One response of the device-code poll endpoint. -/
inductive PollResp where
  | grant (g : PollGrant)
  | failure (code : String)
  deriving DecidableEq, Repr

/-- The poll loop of `GraphAuth.authenticate`: while `utcnow() < expires`,
post to the token endpoint (responses are consumed from `resps` in order);
a response without an `error` field ends the loop with the grant; the error
`authorization_pending` sleeps `interval` and retries; the source then
re-tests `authorization_pending` (a duplicate of the first test) before
raising `AuthorizationCanceledError`, and raises `APIError` for every other
error code; once the clock reaches `expires` with no grant, raise
`AuthorizationTimeoutError`.  `none` means the run needs more responses
than `resps` supplies. -/
def pollLoop (expires interval : Int) :
    Int → List PollResp → Option (Except PyErr PollGrant)
  | now, resps =>
    if now < expires then
      match resps with
      | [] => none
      | r :: rest =>
        match r with
        | PollResp.grant g => some (Except.ok g)
        | PollResp.failure code =>
          if code = "authorization_pending" then
            pollLoop expires interval (now + interval) rest
          else if code = "authorization_pending" then
            some (Except.error PyErr.authorizationCanceled)
          else
            some (Except.error PyErr.apiError)
    else
      some (Except.error PyErr.authorizationTimeout)

end GraphAuth

/-! ### The sync engine: `fsapi.py`

A delta item is modelled by the fields the code inspects: the `name`, the
presence of the `root`, `deleted` and `folder` facets, and
`parentReference.path` (a string such as `/drives/x/root:` or
`/drives/x/root:/docs`).  The per-drive cache multiplexes three namespaces
into one key/value table: `item` entries under the path itself, `children`
entries under `'c' + path`, and the delta cursor under `'delta'`. -/

/-- Characters of a string after its first occurrence of `c`
(`s.partition(c)[2]`); empty when `c` does not occur. -/
def afterFirst (c : Char) : List Char → List Char
  | [] => []
  | x :: rest => if x = c then rest else afterFirst c rest

/-- Python `s.partition(':')[2]`. -/
def afterColon (s : String) : String :=
  String.mk (afterFirst ':' s.data)

/-- Python `s.rpartition('/')[0]`: everything before the last `'/'`, empty
when `'/'` does not occur. -/
def beforeLastSlash (s : String) : String :=
  String.mk ((afterFirst '/' s.data.reverse).reverse)

/-- A delta item, restricted to the fields `fsapi.py` reads. -/
structure Item where
  id : String
  name : String
  root : Bool
  parentPath : String
  deleted : Bool
  folder : Bool
  deriving DecidableEq, Repr

/-- The function `_get_path`: root items map to `/`, all others to
`parentReference.path.partition(':')[2] + '/' + name`. -/
def getPath (it : Item) : String :=
  if it.root then "/" else afterColon it.parentPath ++ "/" ++ it.name

/-- A value the drive cache stores: an item record, a children name list, or
a delta link. -/
inductive CVal where
  | item (it : Item)
  | children (names : List String)
  | link (s : String)
  deriving DecidableEq, Repr

/-- The per-drive cache table. -/
def Cache : Type := List (String × CVal)

instance : DecidableEq Cache := by
  unfold Cache
  infer_instance

/-- Lookup in the drive cache (`self._cache[key]` / `in` tests). -/
def cget (c : Cache) (k : String) : Option CVal := findRow c k

/-- Write to the drive cache (`self._cache[key] = v`). -/
def cset (c : Cache) (k : String) (v : CVal) : Cache := DBDict.setItem c k v

/-- Python `MutableMapping.pop(key)` with no default: `KeyError` when the
key is absent, otherwise the table without it. -/
def cpop (c : Cache) (k : String) : Except PyErr Cache :=
  if (cget c k).isSome then Except.ok (deleteRows c k)
  else Except.error (PyErr.keyError k)

/-- Reads `self._cache.get('c' + p, [])`: the stored children list, or `[]`
when the key is absent. -/
def childrenAt (c : Cache) (k : String) : List String :=
  match cget c k with
  | some (CVal.children l) => l
  | _ => []

/-- Python `list.remove(x)`: drop the first occurrence, `ValueError` when
`x` does not occur. -/
def listRemove (x : String) : List String → Except PyErr (List String)
  | [] => Except.error PyErr.valueError
  | y :: rest =>
    if y = x then Except.ok rest
    else (listRemove x rest).map (fun l => y :: l)

namespace GraphDrive

/-- `GraphDrive._deleted`: derive the path; return silently when the path
is absent from the cache; otherwise pop `item[path]`, pop `children[path]`
when the item carries a `folder` facet (no default: `KeyError` when that
entry is absent), compute the parent as `path.rpartition('/')[0]`, assert
that the parent is itself cached (`AssertionError` otherwise), and remove
the item's name from the parent's children list. -/
def deletedStep (cache : Cache) (it : Item) : Except PyErr Cache :=
  let path := getPath it
  if (cget cache path).isNone then Except.ok cache
  else
    match cpop cache path with
    | Except.error e => Except.error e
    | Except.ok c1 =>
      match (if it.folder then cpop c1 ("c" ++ path) else Except.ok c1) with
      | Except.error e => Except.error e
      | Except.ok c2 =>
        let parent := beforeLastSlash path
        match cget c2 parent with
        | none => Except.error (PyErr.assertionError path)
        | some _ =>
          match listRemove it.name (childrenAt c2 ("c" ++ parent)) with
          | Except.error e => Except.error e
          | Except.ok l2 => Except.ok (cset c2 ("c" ++ parent) (CVal.children l2))

/-- `GraphDrive._added`: compute the parent as `path.rpartition('/')[0] or
'/'`; when the item is not the root, append its name to the parent's
children list (creating it from `[]` when absent). -/
def addedStep (cache : Cache) (it : Item) : Cache :=
  let path := getPath it
  let parent0 := beforeLastSlash path
  let parent := if parent0 = "" then "/" else parent0
  if it.root then cache
  else
    let parchildren := childrenAt cache ("c" ++ parent)
    cset cache ("c" ++ parent) (CVal.children (parchildren ++ [it.name]))

/-- One iteration of the item loop in `_poll_with_delta`: a `deleted` item
goes through `_deleted`; otherwise `_added` runs when the path is new, and
`item[path]` is then written unconditionally. -/
def applyItem (cache : Cache) (it : Item) : Except PyErr Cache :=
  if it.deleted then deletedStep cache it
  else
    let path := getPath it
    let c1 := if (cget cache path).isNone then addedStep cache it else cache
    Except.ok (cset c1 path (CVal.item it))

/-- An observable cache write of the poll loop, in execution order. -/
inductive DriveEvent where
  | persistDelta (link : String)
  | applied (path : String)
  deriving DecidableEq, Repr

/-- Apply the items of one page in order, recording an `applied` event per
item; the first exception aborts the page. -/
def applyItems (cache : Cache) : List Item → Except PyErr (Cache × List DriveEvent)
  | [] => Except.ok (cache, [])
  | it :: rest =>
    match applyItem cache it with
    | Except.error e => Except.error e
    | Except.ok c1 =>
      match applyItems c1 rest with
      | Except.error e => Except.error e
      | Except.ok (c2, evs) =>
        Except.ok (c2, DriveEvent.applied (getPath it) :: evs)

/-- One JSON page of the delta feed: its `value` array and the optional
`@odata.nextLink` / `@odata.deltaLink`. -/
structure DeltaPage where
  items : List Item
  nextLink : Option String
  deltaLink : Option String
  deriving DecidableEq, Repr

/-- The body of the inner loop of `_poll_with_delta` on one fetched page:
when the response carries `@odata.deltaLink` the cursor is written to the
cache (key `delta`) first, and the page's items are applied afterwards.
The event list records the writes in execution order. -/
def processPage (cache : Cache) (p : DeltaPage) :
    Except PyErr (Cache × List DriveEvent) :=
  let start : Cache × List DriveEvent :=
    match p.deltaLink with
    | some l => (cset cache "delta" (CVal.link l), [DriveEvent.persistDelta l])
    | none => (cache, [])
  match applyItems start.1 p.items with
  | Except.error e => Except.error e
  | Except.ok (c1, evs1) => Except.ok (c1, start.2 ++ evs1)

/-- Tests whether a trace event is an item application. -/
def isAppliedEvent : DriveEvent → Bool
  | DriveEvent.applied _ => true
  | _ => false

/-- The ordering property named by the specification for one page's write
trace: the delta cursor is persisted only after every item of the page has
been applied, i.e. no item application may follow a cursor persist. -/
def cursorAfterItems : List DriveEvent → Bool
  | [] => true
  | DriveEvent.persistDelta _ :: rest =>
      rest.all (fun e => !(isAppliedEvent e)) && cursorAfterItems rest
  | DriveEvent.applied _ :: rest => cursorAfterItems rest

end GraphDrive

/-! ### Content reads: `GraphDriveItem.get_contents`

The HTTP exchange is explicit: the function returns the request it issues
(`none` when it returns before any network call) together with the Python
return value (`none` models Python `None`).  Bytes are lists of naturals. -/

/-- The headers of the content request `get_contents` issues. -/
structure RangeRequest where
  rangeHeader : Option String
  ifNoneMatch : Option String
  deriving DecidableEq, Repr

/-- The response the content endpoint returns: the status, the body
(`r.content`), and — when the response is a redirect fetched with
`allow_redirects=False` — the body the follow-up request (`r.next`) would
deliver. -/
structure ContentResponse where
  status : Nat
  body : List Nat
  redirectBody : Option (List Nat)
  deriving DecidableEq, Repr

/-- The `range` header value: `'bytes=%d-%s' % (offset, (offset + size - 1)
if size else '')` — Python truthiness makes the end empty for `size` `None`
or `0`. -/
def formatRange (offset : Int) (size : Option Int) : String :=
  "bytes=" ++ toString offset ++ "-" ++
    (match size with
     | some s => if s = 0 then "" else toString (offset + s - 1)
     | none => "")

/-- `GraphDriveItem.get_contents`: `None` for a folder; empty bytes without
any request when `size ≤ 0`; otherwise issue a GET with an `if-none-match`
header when a content tag is cached and a `range` header when an offset or
size is given, then: empty bytes on 304, `None` on any status ≥ 400, the
redirect target's body when the response is a redirect, and the response
body otherwise. -/
def get_contents (isFolder : Bool) (ctag : Option String)
    (offset size : Option Int) (resp : ContentResponse) :
    Option RangeRequest × Option (List Nat) :=
  if isFolder then (none, none)
  else if (match size with | some s => decide (s ≤ 0) | none => false) then
    (none, some [])
  else
    let range :=
      if offset.isSome || size.isSome then
        some (formatRange (offset.getD 0) size)
      else none
    let req : RangeRequest := { rangeHeader := range, ifNoneMatch := ctag }
    if resp.status = 304 then (some req, some [])
    else if 400 ≤ resp.status then (some req, none)
    else
      match resp.redirectBody with
      | some b => (some req, some b)
      | none => (some req, some resp.body)

/-! ### Concrete scenario data

The delta pages of the specification's Scenarios A and B: a fresh drive
whose first page lists the root item and a `docs` folder under it, and a
second page that marks the `docs` item deleted. -/

/-- The root item `{id:"1", root:true}`. -/
def rootIt : Item :=
  { id := "1", name := "root", root := true, parentPath := "",
    deleted := false, folder := true }

/-- The folder `{id:"2", parentReference:{path:".../root:"}, name:"docs",
folder:{}}`. -/
def docsIt : Item :=
  { id := "2", name := "docs", root := false, parentPath := "/drive/root:",
    deleted := false, folder := true }

/-- The same `docs` item carrying the `deleted` facet. -/
def delDocsIt : Item := { docsIt with deleted := true }

/-- Scenario A's terminal delta page. -/
def pageA : GraphDrive.DeltaPage :=
  { items := [rootIt, docsIt], nextLink := none, deltaLink := some "D1" }

/-- Scenario B's subsequent page marking `docs` deleted. -/
def pageB : GraphDrive.DeltaPage :=
  { items := [delDocsIt], nextLink := none, deltaLink := some "D2" }

/-- The drive cache after page A has been applied to an empty cache. -/
def cacheAfterPageA : Cache :=
  [("delta", CVal.link "D1"),
   ("/", CVal.item rootIt),
   ("c/", CVal.children ["docs"]),
   ("/docs", CVal.item docsIt)]

/-- A drive cache in which the `docs` folder additionally has a child, so
that its own `children` entry exists. -/
def cacheWithDocsChild : Cache :=
  [("/", CVal.item rootIt),
   ("c/", CVal.children ["docs"]),
   ("/docs", CVal.item docsIt),
   ("c/docs", CVal.children ["a.txt"])]

/-! ## Theorems

Helper lemmas about the table primitives, then one theorem per claim. -/

theorem findRow_updateRows {K V : Type} [DecidableEq K]
    (rows : List (K × V)) (k : K) (v : V) (h : (findRow rows k).isSome) :
    findRow (updateRows rows k v) k = some v := by
  induction rows with
  | nil => simp [findRow] at h
  | cons r rest ih =>
    obtain ⟨k', v'⟩ := r
    by_cases hk : k' = k
    · subst hk
      show findRow ((if k' = k' then (k', v) else (k', v')) :: updateRows rest k' v) k'
        = some v
      rw [if_pos rfl]
      simp [findRow]
    · simp [findRow, hk] at h
      show findRow ((if k' = k then (k', v) else (k', v')) :: updateRows rest k v) k
        = some v
      rw [if_neg hk]
      simpa [findRow, hk] using ih h

theorem findRow_append_of_none {K V : Type} [DecidableEq K]
    (rows : List (K × V)) (k : K) (v : V) (h : findRow rows k = none) :
    findRow (rows ++ [(k, v)]) k = some v := by
  induction rows with
  | nil => simp [findRow]
  | cons r rest ih =>
    obtain ⟨k', v'⟩ := r
    by_cases hk : k' = k
    · simp [findRow, hk] at h
    · simp [findRow, hk] at h ⊢
      exact ih h

theorem findRow_setItem_self {K V : Type} [DecidableEq K]
    (rows : List (K × V)) (k : K) (v : V) :
    findRow (DBDict.setItem rows k v) k = some v := by
  unfold DBDict.setItem
  by_cases h : (findRow rows k).isSome
  · simp [h, findRow_updateRows rows k v h]
  · have hn : findRow rows k = none := by
      cases hf : findRow rows k with
      | none => rfl
      | some w => simp [hf] at h
    simp [h, findRow_append_of_none rows k v hn]

theorem findRow_deleteRows {K V : Type} [DecidableEq K]
    (rows : List (K × V)) (k : K) :
    findRow (deleteRows rows k) k = none := by
  induction rows with
  | nil => simp [deleteRows, findRow]
  | cons r rest ih =>
    obtain ⟨k', v'⟩ := r
    by_cases hk : k' = k
    · simpa [deleteRows, findRow, hk] using ih
    · simpa [deleteRows, findRow, hk] using ih

theorem findRow_updateRows_ne {K V : Type} [DecidableEq K]
    (rows : List (K × V)) (k k2 : K) (v : V) (h : k2 ≠ k) :
    findRow (updateRows rows k v) k2 = findRow rows k2 := by
  induction rows with
  | nil => rfl
  | cons r rest ih =>
    obtain ⟨k', v'⟩ := r
    by_cases hk : k' = k
    · subst hk
      show findRow ((if k' = k' then (k', v) else (k', v')) :: updateRows rest k' v) k2
        = findRow ((k', v') :: rest) k2
      rw [if_pos rfl]
      have hne : k' ≠ k2 := fun hh => h hh.symm
      simp [findRow, hne, ih]
    · show findRow ((if k' = k then (k', v) else (k', v')) :: updateRows rest k v) k2
        = findRow ((k', v') :: rest) k2
      rw [if_neg hk]
      simp [findRow, ih]

theorem findRow_append_ne {K V : Type} [DecidableEq K]
    (rows : List (K × V)) (k k2 : K) (v : V) (h : k2 ≠ k) :
    findRow (rows ++ [(k, v)]) k2 = findRow rows k2 := by
  induction rows with
  | nil =>
    have hne : k ≠ k2 := fun hh => h hh.symm
    simp [findRow, hne]
  | cons r rest ih =>
    obtain ⟨k', v'⟩ := r
    by_cases hk : k' = k2
    · simp [findRow, hk]
    · simp [findRow, hk, ih]

theorem findRow_setItem_ne {K V : Type} [DecidableEq K]
    (rows : List (K × V)) (k k2 : K) (v : V) (h : k2 ≠ k) :
    findRow (DBDict.setItem rows k v) k2 = findRow rows k2 := by
  unfold DBDict.setItem
  by_cases hp : (findRow rows k).isSome
  · simp [hp, findRow_updateRows_ne rows k k2 v h]
  · simp [hp, findRow_append_ne rows k k2 v h]

/-- C6: on the persistent cache, `set(k, v)` followed by `get(k)` returns
`v` (insert-or-update); a successful `delete(k)` followed by `get(k)` fails
with the not-found error; and `get` on an absent key fails with the
not-found error. -/
theorem c6_cache_set_get_delete {K V : Type} [DecidableEq K]
    (rows : List (K × V)) (k : K) (v : V) :
    DBDict.getItem (DBDict.setItem rows k v) k = Except.ok v ∧
    (∀ rows2, DBDict.delItem rows k = Except.ok rows2 →
      DBDict.getItem rows2 k = Except.error DBDict.DBErr.keyError) ∧
    (findRow rows k = none →
      DBDict.getItem rows k = Except.error DBDict.DBErr.keyError) := by
  refine ⟨?_, ?_, ?_⟩
  · simp [DBDict.getItem, findRow_setItem_self]
  · intro rows2 h
    unfold DBDict.delItem at h
    by_cases hp : (findRow rows k).isSome
    · rw [if_pos hp] at h
      have h2 : deleteRows rows k = rows2 := by
        injection h
      rw [← h2]
      simp [DBDict.getItem, findRow_deleteRows]
    · rw [if_neg hp] at h
      cases h
  · intro h
    simp [DBDict.getItem, h]

/-- C6 witness: concrete set/get, delete/get and absent-get runs. -/
theorem c6_witness :
    DBDict.getItem (DBDict.setItem ([("a", 1)] : List (String × Nat)) "b" 2) "b"
      = Except.ok 2 ∧
    DBDict.getItem ([] : List (String × Nat)) "a"
      = Except.error DBDict.DBErr.keyError ∧
    DBDict.getItem ([("a", 1)] : List (String × Nat)) "b"
      = Except.error DBDict.DBErr.keyError :=
  ⟨(c6_cache_set_get_delete ([("a", 1)] : List (String × Nat)) "b" 2).1,
   (c6_cache_set_get_delete ([("a", 1)] : List (String × Nat)) "a" 0).2.1 []
     (by rfl),
   (c6_cache_set_get_delete ([("a", 1)] : List (String × Nat)) "b" 0).2.2
     (by decide)⟩

/-- C5: evaluating the code at the failing input: after two `set` calls
under distinct keys the table holds 2 rows, yet `size` — which models
`max(cur.rowcount, 0)` after the sqlite3 `SELECT`, whose `rowcount` is -1 —
returns 0 rather than the key count. -/
theorem c5_size_returns_zero :
    DBDict.size
        (DBDict.setItem (DBDict.setItem ([] : List (String × Nat)) "a" 1) "b" 2)
      = 0 ∧
    (DBDict.setItem (DBDict.setItem ([] : List (String × Nat)) "a" 1) "b" 2).length
      = 2 := by
  constructor <;> rfl

/-- C3 counterexample: a state that holds an (expired) access token but no
refresh token makes `access_token` fail with the no-credential error, so
the failure is not characterized by "neither an access token nor a refresh
token is held": here an access token is held. -/
theorem c3_counterexample :
    ¬ ((GraphAuth.access_token 1
          { accessToken := some "tok", expires := 0, refreshToken := none }
          (TokenResp.success 3600 "r2" "a2")).1
        = Except.error PyErr.noTokenError
      ↔ (some "tok" : Option String) = none ∧ (none : Option String) = none) := by
  intro h
  have h2 := h.mp rfl
  exact Option.noConfusion h2.1

/-- C3 amended: a read of the token fails with the no-credential error
exactly when no refresh token is held and a renewal would be needed (no
access token, or the clock is strictly past expiry; in particular when
neither token is held); a cached token is returned without renewal whenever
it is present and the clock has not strictly passed its expiry (the token
is trusted up to and including the expiry instant); and a successful read
performed a renewal exactly when the token was absent or strictly past
expiry. -/
theorem c3_amended (now : Int) (st : AuthState) (resp : TokenResp) :
    ((GraphAuth.access_token now st resp).1 = Except.error PyErr.noTokenError ↔
      st.refreshToken = none ∧ (st.accessToken = none ∨ now > st.expires)) ∧
    (∀ a, st.accessToken = some a → now ≤ st.expires →
      GraphAuth.access_token now st resp = (Except.ok (a, false), st)) ∧
    (∀ tok st2 renewed,
      GraphAuth.access_token now st resp = (Except.ok (tok, renewed), st2) →
      (renewed = true ↔ (st.accessToken = none ∨ now > st.expires))) := by
  obtain ⟨a, e, r⟩ := st
  by_cases hn : now > e <;>
    cases a <;> cases r <;> cases resp <;>
      simp [GraphAuth.access_token, GraphAuth.refresh, hn]

/-- C3 amended, witness: a held token read at an instant not past expiry is
returned unrenewed. -/
theorem c3_amended_witness :
    GraphAuth.access_token 5
        { accessToken := some "tok", expires := 9, refreshToken := none }
        (TokenResp.success 3600 "r2" "a2")
      = (Except.ok ("tok", false),
         { accessToken := some "tok", expires := 9, refreshToken := none }) :=
  (c3_amended 5 { accessToken := some "tok", expires := 9, refreshToken := none }
      (TokenResp.success 3600 "r2" "a2")).2.1 "tok" rfl (by decide)

/-- C9: when a refresh token is held and the token endpoint's response to
`refresh` carries an error payload, the call raises `APIError` and the
credential triple is left exactly as it was before the call. -/
theorem c9_refresh_error_preserves_state (now : Int) (st : AuthState)
    (code rt : String) (hrt : st.refreshToken = some rt) :
    GraphAuth.refresh now st (TokenResp.failure code)
      = (Except.error PyErr.apiError, st) := by
  unfold GraphAuth.refresh
  rw [hrt]

/-- C9 witness: a concrete erroring refresh leaves the concrete state
unchanged. -/
theorem c9_witness :
    GraphAuth.refresh 7
        { accessToken := some "old", expires := 3, refreshToken := some "r" }
        (TokenResp.failure "invalid_grant")
      = (Except.error PyErr.apiError,
         { accessToken := some "old", expires := 3, refreshToken := some "r" }) :=
  c9_refresh_error_preserves_state 7
    { accessToken := some "old", expires := 3, refreshToken := some "r" }
    "invalid_grant" "r" rfl

/-- C4: evaluating the device-code poll at the failing input: a pending
response followed by the user's denial (`authorization_declined`) raises
`APIError`, not `AuthorizationCanceledError`; moreover no run of the poll
loop whatsoever can raise `AuthorizationCanceledError` — the branch is dead
because its guard repeats the `authorization_pending` test. -/
theorem c4_denial_raises_api :
    GraphAuth.pollLoop 100 5 0
        [GraphAuth.PollResp.failure "authorization_pending",
         GraphAuth.PollResp.failure "authorization_declined"]
      = some (Except.error PyErr.apiError) ∧
    ∀ (expires interval now : Int) (resps : List GraphAuth.PollResp),
      GraphAuth.pollLoop expires interval now resps
        ≠ some (Except.error PyErr.authorizationCanceled) := by
  constructor
  · rfl
  · intro expires interval now resps
    induction resps generalizing now with
    | nil =>
      intro h
      rw [GraphAuth.pollLoop.eq_1] at h
      split_ifs at h
      simp at h
    | cons r rest ih =>
      intro h
      cases r with
      | grant g =>
        rw [GraphAuth.pollLoop.eq_2] at h
        split_ifs at h <;> simp at h
      | failure code =>
        rw [GraphAuth.pollLoop.eq_3] at h
        by_cases hlt : now < expires
        · rw [if_pos hlt] at h
          by_cases hc : code = "authorization_pending"
          · rw [if_pos hc] at h
            exact ih (now + interval) h
          · rw [if_neg hc, if_neg hc] at h
            simp at h
        · rw [if_neg hlt] at h
          simp at h

theorem applyItems_events_applied (cache : Cache) (its : List Item)
    (c2 : Cache) (evs : List GraphDrive.DriveEvent)
    (h : GraphDrive.applyItems cache its = Except.ok (c2, evs)) :
    evs.all GraphDrive.isAppliedEvent = true := by
  induction its generalizing cache c2 evs with
  | nil =>
    simp [GraphDrive.applyItems] at h
    rw [h.2]
    rfl
  | cons it rest ih =>
    cases h1 : GraphDrive.applyItem cache it with
    | error e =>
      rw [GraphDrive.applyItems.eq_2, h1] at h
      simp at h
    | ok c1 =>
      rw [GraphDrive.applyItems.eq_2, h1] at h
      dsimp only at h
      cases h2 : GraphDrive.applyItems c1 rest with
      | error e =>
        rw [h2] at h
        simp at h
      | ok pr =>
        obtain ⟨c3, evs3⟩ := pr
        rw [h2] at h
        simp at h
        obtain ⟨hc3, hevs⟩ := h
        subst hevs
        have hall := ih c1 c3 evs3 h2
        simp [GraphDrive.isAppliedEvent, hall]

/-- C2 counterexample: processing the concrete terminal page (root and
`docs`, delta cursor `D1`) from an empty cache produces the write trace
cursor-first — the cursor persist precedes both item applications — so the
trace violates the persisted-only-after-the-page-is-applied ordering. -/
theorem c2_counterexample :
    (GraphDrive.processPage ([] : Cache) pageA).map
        (fun r => GraphDrive.cursorAfterItems r.2)
      = Except.ok false ∧
    (GraphDrive.processPage ([] : Cache) pageA).map (fun r => r.2)
      = Except.ok [GraphDrive.DriveEvent.persistDelta "D1",
          GraphDrive.DriveEvent.applied "/",
          GraphDrive.DriveEvent.applied "/docs"] := by
  constructor <;> rfl

/-- C2 amended: when a fetched page carries a delta cursor, the loop body
persists it immediately — it is the first cache write of the page, before
any of the page's items is applied, and every later event of the page's
trace is an item application. -/
theorem c2_amended (cache : Cache) (p : GraphDrive.DeltaPage) (l : String)
    (c2 : Cache) (evs : List GraphDrive.DriveEvent)
    (hl : p.deltaLink = some l)
    (h : GraphDrive.processPage cache p = Except.ok (c2, evs)) :
    evs.head? = some (GraphDrive.DriveEvent.persistDelta l) ∧
    evs.tail.all GraphDrive.isAppliedEvent = true := by
  simp only [GraphDrive.processPage, hl] at h
  cases ha : GraphDrive.applyItems (cset cache "delta" (CVal.link l)) p.items with
  | error e =>
    rw [ha] at h
    simp at h
  | ok pr =>
    obtain ⟨c3, evs3⟩ := pr
    rw [ha] at h
    simp at h
    obtain ⟨hc3, hevs⟩ := h
    subst hevs
    exact ⟨rfl, applyItems_events_applied _ _ _ _ ha⟩

/-- C2 amended, witness: the concrete trace of page A starts with the
cursor persist and continues with item applications only. -/
theorem c2_amended_witness :
    ([GraphDrive.DriveEvent.persistDelta "D1", GraphDrive.DriveEvent.applied "/",
      GraphDrive.DriveEvent.applied "/docs"] :
        List GraphDrive.DriveEvent).head?
      = some (GraphDrive.DriveEvent.persistDelta "D1") ∧
    ([GraphDrive.DriveEvent.persistDelta "D1", GraphDrive.DriveEvent.applied "/",
      GraphDrive.DriveEvent.applied "/docs"] :
        List GraphDrive.DriveEvent).tail.all GraphDrive.isAppliedEvent = true :=
  c2_amended ([] : Cache) pageA "D1" cacheAfterPageA
    [GraphDrive.DriveEvent.persistDelta "D1", GraphDrive.DriveEvent.applied "/",
     GraphDrive.DriveEvent.applied "/docs"] rfl (by rfl)

/-- C1: evaluating the deletion scenario of the claim: after the page
listing the root item and the `docs` folder has been applied (which did
record `docs` under `children["/"]`), processing the page that marks `docs`
deleted aborts with `KeyError` on the absent `c/docs` children entry of the
empty folder instead of completing the removals; and even when that entry
exists (the folder has a child), the step aborts with the parent assertion,
because the parent of `/docs` is computed as `""` while the root is cached
under `"/"`. -/
theorem c1_delete_scenario_crashes :
    (GraphDrive.processPage ([] : Cache) pageA).bind
        (fun r => GraphDrive.processPage r.1 pageB)
      = Except.error (PyErr.keyError "c/docs") ∧
    (GraphDrive.processPage ([] : Cache) pageA).map
        (fun r => childrenAt r.1 "c/")
      = Except.ok ["docs"] ∧
    GraphDrive.deletedStep cacheWithDocsChild delDocsIt
      = Except.error (PyErr.assertionError "/docs") := by
  refine ⟨rfl, rfl, rfl⟩

/-- C10: processing a deleted delta item whose derived path has no entry in
the cache is a complete no-op: the step succeeds and returns the cache
unchanged, so no entry of any namespace is added, removed or modified and
no invariant-violation failure is raised. -/
theorem c10_deleted_absent_noop (cache : Cache) (it : Item)
    (hdel : it.deleted = true)
    (habs : cget cache (getPath it) = none) :
    GraphDrive.applyItem cache it = Except.ok cache := by
  simp [GraphDrive.applyItem, GraphDrive.deletedStep, hdel, habs]

/-- C10 witness: deleting `docs` on an empty cache is a no-op. -/
theorem c10_witness :
    GraphDrive.applyItem ([] : Cache) delDocsIt = Except.ok ([] : Cache) :=
  c10_deleted_absent_noop ([] : Cache) delDocsIt rfl rfl

/-- C7: re-applying a non-deleted item that is already recorded in the index
rewrites the same `item[path]` record: the step succeeds, `item[path]` still
maps to the item, and every children list in the cache (in particular
`children[parent]`) is exactly as before — the name is not appended a
second time. -/
theorem c7_reapply_idempotent (cache : Cache) (it : Item)
    (hnd : it.deleted = false)
    (h : cget cache (getPath it) = some (CVal.item it)) :
    GraphDrive.applyItem cache it
      = Except.ok (cset cache (getPath it) (CVal.item it)) ∧
    cget (cset cache (getPath it) (CVal.item it)) (getPath it)
      = some (CVal.item it) ∧
    ∀ k, childrenAt (cset cache (getPath it) (CVal.item it)) k
      = childrenAt cache k := by
  refine ⟨?_, ?_, ?_⟩
  · simp [GraphDrive.applyItem, hnd, h]
  · exact findRow_setItem_self cache (getPath it) (CVal.item it)
  · intro k
    by_cases hk : k = getPath it
    · rw [hk]
      have h1 : cget (cset cache (getPath it) (CVal.item it)) (getPath it)
          = some (CVal.item it) :=
        findRow_setItem_self cache (getPath it) (CVal.item it)
      simp [childrenAt, h1, h]
    · have h1 : cget (cset cache (getPath it) (CVal.item it)) k = cget cache k :=
        findRow_setItem_ne cache (getPath it) k (CVal.item it) hk
      simp [childrenAt, h1]

/-- C7 witness: re-applying `docs` on the cache that already holds it. -/
theorem c7_witness :
    GraphDrive.applyItem cacheAfterPageA docsIt
      = Except.ok (cset cacheAfterPageA (getPath docsIt) (CVal.item docsIt)) ∧
    childrenAt (cset cacheAfterPageA (getPath docsIt) (CVal.item docsIt)) "c/"
      = childrenAt cacheAfterPageA "c/" :=
  ⟨(c7_reapply_idempotent cacheAfterPageA docsIt rfl (by rfl)).1,
   (c7_reapply_idempotent cacheAfterPageA docsIt rfl (by rfl)).2.2 "c/"⟩

/-- C8: a content read of a file returns empty bytes without issuing any
request when `size ≤ 0`; with `offset=10, size=5` it issues the ranged
request `bytes=10-14` and returns the response body on a plain (no
redirect) 200/206; and on a 304 it returns empty bytes. -/
theorem c8_read_content (ctag : Option String) (offset : Option Int)
    (s : Int) (resp : ContentResponse) :
    (s ≤ 0 → get_contents false ctag offset (some s) resp = (none, some [])) ∧
    ((resp.status = 200 ∨ resp.status = 206) → resp.redirectBody = none →
      get_contents false ctag (some 10) (some 5) resp
        = (some { rangeHeader := some "bytes=10-14", ifNoneMatch := ctag },
           some resp.body)) ∧
    (resp.status = 304 →
      get_contents false ctag (some 10) (some 5) resp
        = (some { rangeHeader := some "bytes=10-14", ifNoneMatch := ctag },
           some [])) := by
  have hfr : formatRange 10 (some 5) = "bytes=10-14" := by rfl
  refine ⟨?_, ?_, ?_⟩
  · intro hs
    simp [get_contents, hs]
  · intro hst hrd
    have h304 : resp.status ≠ 304 := by rcases hst with h | h <;> omega
    have h400 : ¬ 400 ≤ resp.status := by rcases hst with h | h <;> omega
    simp [get_contents, hfr, h304, h400, hrd]
  · intro h304
    simp [get_contents, hfr, h304]

/-- C8 witness: the three scenarios at concrete responses. -/
theorem c8_witness :
    get_contents false none (some 10) (some 0)
        { status := 200, body := [], redirectBody := none }
      = (none, some []) ∧
    get_contents false none (some 10) (some 5)
        { status := 200, body := [1, 2, 3, 4, 5], redirectBody := none }
      = (some { rangeHeader := some "bytes=10-14", ifNoneMatch := none },
         some [1, 2, 3, 4, 5]) ∧
    get_contents false (some "T") (some 10) (some 5)
        { status := 304, body := [], redirectBody := none }
      = (some { rangeHeader := some "bytes=10-14", ifNoneMatch := some "T" },
         some []) :=
  ⟨(c8_read_content none (some 10) 0
      { status := 200, body := [], redirectBody := none }).1 (by decide),
   (c8_read_content none (some 10) 5
      { status := 200, body := [1, 2, 3, 4, 5], redirectBody := none }).2.1
      (Or.inl rfl) rfl,
   (c8_read_content (some "T") (some 10) 5
      { status := 304, body := [], redirectBody := none }).2.2 rfl⟩

end PyDrive
